import Mathlib

/- Verification of the adb controller core of this repository
(android_env/components/adb_controller.py) against its specification.
The Python code is shallowly embedded: byte strings become lists of UInt8,
the pexpect transport and the one-shot subprocess become oracles supplied as
function arguments, and exceptions become an explicit error type. -/

namespace AdbSpec

/-- Byte strings, as produced by the pexpect transport (Python bytes). -/
abbrev Bytes := List UInt8

/-- UTF-8 encoding of a string, modelling the Python expression
str.encode(checkStr) at adb_controller.py line 195. -/
def strEncode (s : String) : Bytes := s.data.flatMap String.utf8EncodeChar

/-- Errors raised by the controller, named after the Python exception classes
raised in adb_controller.py: errors.AdbControllerPexpectError (line 202),
errors.AdbControllerShellInitError (line 246),
errors.AdbControllerDeviceTimeoutError (line 279), the subprocess exceptions
re-raised at line 147, and the builtin AssertionError of the assert
statements. -/
inductive AdbError
  | AdbControllerPexpectError
  | AdbControllerShellInitError
  | AdbControllerDeviceTimeoutError
  | CalledProcessError
  | TimeoutExpired
  | AssertionError
  deriving DecidableEq

/-- A single command issued through AdbController._execute_command: the
argument list, the timeout actually passed, and the checkStr actually passed.
Timeouts are rationals since the Python code mixes ints and floats. -/
structure IssuedCommand where
  args : List String
  timeout : ℚ
  checkStr : String
  deriving DecidableEq

/- ===== Per-command wrappers (claims C9 and C10) =====
Each wrapper of adb_controller.py overwrites its timeout parameter with a
hard-coded constant and then issues exactly one command through
_execute_command; the embedding returns that issued command. The caller
supplied timeout parameter is kept in the signature to show it is ignored. -/

/-- AdbController.start_activity (adb_controller.py lines 350-359):
overwrites timeout with 10 and issues the am start command. -/
def start_activity (full_activity : String) (extra_args : Option (List String))
    (timeout : Option ℚ) : IssuedCommand :=
  { args := ["shell", "am", "start", "-S", "-n", full_activity] ++ extra_args.getD []
    timeout := 10
    checkStr := "" }

/-- AdbController.push_file (adb_controller.py lines 401-403): overwrites
timeout with 30 and issues the push command. -/
def push_file (src : String) (dest : String) (timeout : Option ℚ) : IssuedCommand :=
  { args := ["push", src, dest], timeout := 30, checkStr := "" }

/-- AdbController.force_stop (adb_controller.py lines 405-407): overwrites
timeout with 10 and issues the am force-stop command. -/
def force_stop (package : String) (timeout : Option ℚ) : IssuedCommand :=
  { args := ["shell", "am", "force-stop", package], timeout := 10, checkStr := "" }

/-- AdbController.input_tap (adb_controller.py lines 615-619): overwrites
timeout with 10 and issues the input tap command with str(x) and str(y). -/
def input_tap (x : Int) (y : Int) (timeout : Option ℚ) : IssuedCommand :=
  { args := ["shell", "input", "tap", toString x, toString y]
    timeout := 10
    checkStr := "" }

/-- The single command issued by AdbController.is_package_installed
(adb_controller.py lines 333-338): timeout is overwritten with 5 and the
package list is requested; the subsequent parsing of the output does not
issue further commands. -/
def is_package_installed_cmd (package_name : String) (timeout : Option ℚ) :
    IssuedCommand :=
  { args := ["shell", "pm", "list", "packages"], timeout := 5, checkStr := "" }

/-- The key codes accepted by AdbController.input_key
(adb_controller.py line 649). -/
def accepted_key_codes : List String :=
  ["KEYCODE_HOME", "KEYCODE_BACK", "KEYCODE_ENTER"]

/-- AdbController.input_key (adb_controller.py lines 628-652): asserts that
key_code is accepted before issuing any command; the second component lists
the commands actually issued during the call (empty when the assert fires). -/
def input_key (key_code : String) (timeout : Option ℚ) :
    Except AdbError IssuedCommand × List IssuedCommand :=
  if key_code ∈ accepted_key_codes then
    let cmd : IssuedCommand :=
      { args := ["shell", "input", "keyevent", key_code], timeout := 10, checkStr := "" }
    (.ok cmd, [cmd])
  else (.error .AssertionError, [])

/-- C9: for every value of the caller-supplied timeout argument (including
none), the per-command wrappers ignore it and issue their command with a fixed
hard-coded timeout: start_activity, input_tap and force_stop always use 10
seconds, push_file always uses 30 seconds, and is_package_installed always
uses 5 seconds; the issued command is therefore independent of the timeout
argument. -/
theorem wrapper_timeouts_fixed :
    (∀ a e t u, start_activity a e t = start_activity a e u ∧
      (start_activity a e t).timeout = 10) ∧
    (∀ x y t u, input_tap x y t = input_tap x y u ∧ (input_tap x y t).timeout = 10) ∧
    (∀ p t u, force_stop p t = force_stop p u ∧ (force_stop p t).timeout = 10) ∧
    (∀ s d t u, push_file s d t = push_file s d u ∧ (push_file s d t).timeout = 30) ∧
    (∀ p t u, is_package_installed_cmd p t = is_package_installed_cmd p u ∧
      (is_package_installed_cmd p t).timeout = 5) := by
  refine ⟨?_, ?_, ?_, ?_, ?_⟩ <;> intros <;> exact ⟨rfl, rfl⟩

/-- C10: input_key issues a shell input keyevent command exactly when its
key_code argument is one of KEYCODE_HOME, KEYCODE_BACK, KEYCODE_ENTER; for
every other key_code the call fails an assertion and no command at all is
issued, leaving the controller state unchanged. -/
theorem input_key_accepted_codes_only (key_code : String) (t : Option ℚ) :
    (key_code ∈ accepted_key_codes →
      input_key key_code t =
        (.ok ⟨["shell", "input", "keyevent", key_code], 10, ""⟩,
          [⟨["shell", "input", "keyevent", key_code], 10, ""⟩])) ∧
    (key_code ∉ accepted_key_codes →
      input_key key_code t = (.error .AssertionError, [])) ∧
    accepted_key_codes = ["KEYCODE_HOME", "KEYCODE_BACK", "KEYCODE_ENTER"] := by
  refine ⟨fun h => ?_, fun h => ?_, rfl⟩ <;> simp [input_key, h]

/-- Witness for input_key_accepted_codes_only: KEYCODE_HOME is issued with
timeout 10, while KEYCODE_A fails the assertion with no command issued. -/
theorem input_key_accepted_codes_only_witness :
    input_key "KEYCODE_HOME" none =
      (.ok ⟨["shell", "input", "keyevent", "KEYCODE_HOME"], 10, ""⟩,
        [⟨["shell", "input", "keyevent", "KEYCODE_HOME"], 10, ""⟩]) ∧
    input_key "KEYCODE_A" none = (.error .AssertionError, []) :=
  ⟨(input_key_accepted_codes_only "KEYCODE_HOME" none).1 (by decide),
   (input_key_accepted_codes_only "KEYCODE_A" none).2.1 (by decide)⟩

/- ===== Interactive shell session (claims C1, C2, C3) =====
The pexpect transport is embedded as an oracle: each iteration of the retry
loop of _execute_shell_command performs sendline plus expect, whose outcome is
one of: expect returned (ok, carrying the before and after buffers), expect
raised pexpect.exceptions.EOF, or expect raised pexpect.exceptions.TIMEOUT
(carrying the before buffer). The eof and timeout outcomes also record
whether the _init_shell call made in that handler succeeds; when it fails,
_init_shell raises AdbControllerShellInitError, which escapes the loop. -/

/-- Outcome of one sendline/expect round trip on the pexpect shell. -/
inductive AttemptOutcome
  | ok (before : Bytes) (after : Bytes)
  | eof (reinitOk : Bool)
  | timeout (before : Bytes) (reinitOk : Bool)
  deriving DecidableEq

/-- Constant _MAX_INIT_RETRIES of adb_controller.py line 31. -/
def MAX_INIT_RETRIES : Nat := 20

/-- Constant _INIT_RETRY_SLEEP_SEC of adb_controller.py line 32, in seconds. -/
def INIT_RETRY_SLEEP_SEC : ℚ := 2

/-- Default value of the max_num_retries parameter of
_execute_shell_command (adb_controller.py line 152); no caller overrides it. -/
def max_num_retries : Nat := 3

/-- Python bytes.partition applied with separator b: everything after the
first line feed byte, or the empty byte string when none occurs, modelling
shell_ret[2] at adb_controller.py lines 179-181. -/
def dropThroughNewline : Bytes → Bytes
  | [] => []
  | b :: rest => if b = 10 then rest else dropThroughNewline rest

/-- The value returned on a successful expect (adb_controller.py lines
176-182): on win32 the matched text (after), otherwise the before buffer with
the echoed command line consumed. -/
def okOutput (win32 : Bool) (before : Bytes) (after : Bytes) : Bytes :=
  if win32 then after else dropThroughNewline before

/-- The body of the while loop of _execute_shell_command (adb_controller.py
lines 164-199), one list element per iteration, together with the running
count of _init_shell calls. The list handed to it has length
max_num_retries, so the empty list means the loop condition
num_tries < max_num_retries failed and line 202 raises
AdbControllerPexpectError. -/
def shell_loop (win32 : Bool) (checkStr : String) :
    List AttemptOutcome → Nat → Except AdbError Bytes × Nat
  | [], inits => (.error .AdbControllerPexpectError, inits)
  | o :: rest, inits =>
    match o with
    | .ok before after => (.ok (okOutput win32 before after), inits)
    | .eof reinitOk =>
        if reinitOk then shell_loop win32 checkStr rest (inits + 1)
        else (.error .AdbControllerShellInitError, inits + 1)
    | .timeout before reinitOk =>
        if win32 ∧ before ≠ [] then
          (.ok (if checkStr ≠ "" then strEncode checkStr else before), inits)
        else if reinitOk then shell_loop win32 checkStr rest (inits + 1)
        else (.error .AdbControllerShellInitError, inits + 1)

/-- AdbController._execute_shell_command (adb_controller.py lines 149-202):
when the shell is not ready it is first initialised (one extra _init_shell
call, which may itself fail), then the retry loop runs for at most
max_num_retries attempts whose transport outcomes are given by the oracle.
Returns the Python return value or raised error, paired with the number of
_init_shell calls made. -/
def execute_shell_command (win32 : Bool) (checkStr : String)
    (shell_is_ready : Bool) (initialInitOk : Bool)
    (outcomes : Nat → AttemptOutcome) : Except AdbError Bytes × Nat :=
  if shell_is_ready then
    shell_loop win32 checkStr ((List.range max_num_retries).map outcomes) 0
  else if initialInitOk then
    shell_loop win32 checkStr ((List.range max_num_retries).map outcomes) 1
  else (.error .AdbControllerShellInitError, 1)

/- ===== _init_shell (claim C2) ===== -/

/-- Result of a run of _init_shell: whether the ready flag was set, the error
raised (if any), the number of spawn attempts made, and the number of
time.sleep(_INIT_RETRY_SLEEP_SEC) calls made. -/
structure InitResult where
  shell_is_ready : Bool
  error : Option AdbError
  attempts : Nat
  sleeps : Nat
  deriving DecidableEq

/-- The while loop of _init_shell (adb_controller.py lines 219-244): each
attempt spawns the shell and waits for the first prompt; spawnOk gives the
outcome of attempt i (an exception from either step lands in the handler at
line 240, which sleeps _INIT_RETRY_SLEEP_SEC and retries). The fuel argument
is the remaining value of _MAX_INIT_RETRIES - num_tries. -/
def init_loop (spawnOk : Nat → Bool) (numTries : Nat) (sleeps : Nat) :
    Nat → InitResult
  | 0 => ⟨false, some .AdbControllerShellInitError, numTries, sleeps⟩
  | fuel + 1 =>
    if spawnOk numTries then ⟨true, none, numTries + 1, sleeps⟩
    else init_loop spawnOk (numTries + 1) (sleeps + 1) fuel

/-- AdbController._init_shell (adb_controller.py lines 204-247). -/
def init_shell (spawnOk : Nat → Bool) : InitResult :=
  init_loop spawnOk 0 0 MAX_INIT_RETRIES

/-- When every spawn attempt fails, the loop makes exactly the remaining
number of attempts, sleeping after each one, and ends unready with
AdbControllerShellInitError. -/
theorem init_loop_all_fail (spawnOk : Nat → Bool)
    (h : ∀ i, spawnOk i = false) :
    ∀ fuel numTries sleeps, init_loop spawnOk numTries sleeps fuel =
      ⟨false, some .AdbControllerShellInitError, numTries + fuel, sleeps + fuel⟩ := by
  intro fuel
  induction fuel with
  | zero => intro numTries sleeps; simp [init_loop]
  | succ n ih =>
    intro numTries sleeps
    simp only [init_loop, h numTries, if_neg]
    rw [ih (numTries + 1) (sleeps + 1)]
    simp; omega

/-- When the first success is at attempt index k, the loop returns ready after
k + 1 attempts and k sleeps, raising nothing. -/
theorem init_loop_first_success (spawnOk : Nat → Bool) (k : Nat)
    (hk : spawnOk k = true) (hbefore : ∀ i, i < k → spawnOk i = false) :
    ∀ fuel numTries sleeps, numTries + fuel = k + (fuel - (k - numTries)) →
      numTries ≤ k → k < numTries + fuel →
      init_loop spawnOk numTries sleeps fuel =
        ⟨true, none, k + 1, sleeps + (k - numTries)⟩ := by
  intro fuel
  induction fuel with
  | zero => intro numTries sleeps _ _ h2; omega
  | succ n ih =>
    intro numTries sleeps _ h1 h2
    by_cases hnk : numTries = k
    · subst hnk
      simp [init_loop, hk]
    · have hlt : numTries < k := lt_of_le_of_ne h1 hnk
      simp only [init_loop, hbefore numTries hlt, if_neg]
      have := ih (numTries + 1) (sleeps + 1) (by omega) (by omega) (by omega)
      rw [this]
      simp; omega

/-- C2: if every spawn attempt of the interactive shell fails, _init_shell
makes exactly the configured maximum number of attempts (20), sleeping the
configured fixed delay (2.0 seconds) after each failed attempt and hence
between consecutive attempts, and then raises AdbControllerShellInitError
without setting the ready flag; if the first successful attempt is attempt
k + 1, it sets the ready flag and returns after exactly k + 1 attempts with
no error and no further retries. -/
theorem init_shell_retry_exhaustion_and_success (spawnOk : Nat → Bool) :
    ((∀ i, spawnOk i = false) →
      init_shell spawnOk = ⟨false, some .AdbControllerShellInitError, 20, 20⟩) ∧
    (∀ k, k < MAX_INIT_RETRIES → spawnOk k = true →
      (∀ i, i < k → spawnOk i = false) →
      init_shell spawnOk = ⟨true, none, k + 1, k⟩) ∧
    MAX_INIT_RETRIES = 20 ∧ INIT_RETRY_SLEEP_SEC = 2 := by
  refine ⟨fun h => ?_, fun k hk hs hb => ?_, rfl, rfl⟩
  · have := init_loop_all_fail spawnOk h MAX_INIT_RETRIES 0 0
    simpa [init_shell, MAX_INIT_RETRIES] using this
  · have := init_loop_first_success spawnOk k hs hb MAX_INIT_RETRIES 0 0
      (by omega) (by omega) (by omega)
    simpa [init_shell] using this

/-- Witness for init_shell_retry_exhaustion_and_success: an always-failing
spawn exhausts all 20 attempts and raises, while a spawn that first succeeds
on its third attempt sets the ready flag after exactly 3 attempts. -/
theorem init_shell_retry_exhaustion_and_success_witness :
    init_shell (fun _ => false) = ⟨false, some .AdbControllerShellInitError, 20, 20⟩ ∧
    init_shell (fun i => decide (i = 2)) = ⟨true, none, 3, 2⟩ :=
  ⟨(init_shell_retry_exhaustion_and_success (fun _ => false)).1 (fun _ => rfl),
   (init_shell_retry_exhaustion_and_success (fun i => decide (i = 2))).2.1 2
     (by decide) (by decide) (by decide)⟩

/-- C1: for a shell command executed through _execute_shell_command with a
ready shell, an attempt whose expect raises end-of-stream reinitializes the
session (one _init_shell call) and retries the same send, so a command that
hits exactly one end-of-stream and then succeeds returns its output with no
visible error; a command whose three attempts all hit end-of-stream raises
AdbControllerPexpectError, max_num_retries being 3. -/
theorem shell_command_eof_retry_and_bound (win32 : Bool) (cs : String)
    (b : Bytes) (a : Bytes) (o : Nat → AttemptOutcome)
    (h0 : o 0 = .eof true) (h1 : o 1 = .ok b a) :
    execute_shell_command win32 cs true true o = (.ok (okOutput win32 b a), 1) ∧
    (∀ o2 : Nat → AttemptOutcome, (∀ i, o2 i = .eof true) →
      execute_shell_command win32 cs true true o2 =
        (.error .AdbControllerPexpectError, 3)) ∧
    max_num_retries = 3 := by
  refine ⟨?_, fun o2 h2 => ?_, rfl⟩
  · simp [execute_shell_command, max_num_retries, List.range_succ, shell_loop, h0, h1]
  · simp [execute_shell_command, max_num_retries, List.range_succ, shell_loop, h2]

/-- Witness for shell_command_eof_retry_and_bound: a send whose first attempt
hits end-of-stream and whose second attempt returns the buffer ls-newline-out
yields the bytes after the echoed command with one reinitialization, while
three end-of-streams raise AdbControllerPexpectError. -/
theorem shell_command_eof_retry_and_bound_witness :
    execute_shell_command false "" true true
        (fun n => if n = 0 then .eof true else .ok [108, 10, 111] []) =
      (.ok [111], 1) ∧
    execute_shell_command false "" true true (fun _ => .eof true) =
      (.error .AdbControllerPexpectError, 3) :=
  ⟨(shell_command_eof_retry_and_bound false "" [108, 10, 111] []
      (fun n => if n = 0 then .eof true else .ok [108, 10, 111] []) rfl rfl).1,
   (shell_command_eof_retry_and_bound false "" [108, 10, 111] []
      (fun n => if n = 0 then .eof true else .ok [108, 10, 111] []) rfl rfl).2.1
     (fun _ => .eof true) (fun _ => rfl)⟩

/-- C3 counterexample: the claim states that on a timeout with a non-empty
partial buffer and a supplied check pattern, _execute_shell_command returns
the accumulated partial buffer; on the win32 path with check pattern OK and
partial buffer equal to the encoding of the word partial, the code instead
returns the UTF-8 encoding of the check pattern itself (adb_controller.py
lines 194-195), which differs from the partial buffer. -/
theorem shell_timeout_returns_checkstr_not_buffer :
    execute_shell_command true "OK" true true
        (fun _ => .timeout (strEncode "partial") true) =
      (.ok (strEncode "OK"), 0) ∧
    strEncode "OK" ≠ strEncode "partial" := by
  constructor
  · rfl
  · decide

/-- C3 amended: when a shell command times out while waiting on the win32
platform and the accumulated partial buffer is non-empty, the call succeeds
immediately, returning the UTF-8 encoding of the check pattern when one was
supplied (not the partial buffer), and the partial buffer itself only when no
check pattern was supplied; on any other timeout (non-win32, or an empty
buffer) the timeout is treated as a failure that reinitializes the shell and
retries, identically to end-of-stream handling. -/
theorem shell_timeout_partial_output_amended (cs : String) (b : Bytes)
    (a : Bytes) (before : Bytes) (o : Nat → AttemptOutcome)
    (h0 : o 0 = .timeout before true) (h1 : o 1 = .ok b a)
    (hb : before ≠ []) :
    (cs ≠ "" →
      execute_shell_command true cs true true o = (.ok (strEncode cs), 0)) ∧
    execute_shell_command true "" true true o = (.ok before, 0) ∧
    execute_shell_command false cs true true o = (.ok (okOutput false b a), 1) ∧
    (∀ o2 : Nat → AttemptOutcome, o2 0 = .timeout [] true → o2 1 = .ok b a →
      execute_shell_command true cs true true o2 =
        (.ok (okOutput true b a), 1)) := by
  refine ⟨fun hcs => ?_, ?_, ?_, fun o2 g0 g1 => ?_⟩
  · simp [execute_shell_command, max_num_retries, List.range_succ, shell_loop,
      h0, hb, hcs]
  · simp [execute_shell_command, max_num_retries, List.range_succ, shell_loop,
      h0, hb]
  · simp [execute_shell_command, max_num_retries, List.range_succ, shell_loop,
      h0, h1]
  · simp [execute_shell_command, max_num_retries, List.range_succ, shell_loop,
      g0, g1]

/-- Witness for shell_timeout_partial_output_amended at concrete inputs: the
win32 timeout shortcut returns the encoded check pattern when one is given
and the buffer when not, while the non-win32 timeout and the empty-buffer
win32 timeout reinitialize and retry. -/
theorem shell_timeout_partial_output_amended_witness :
    execute_shell_command true "OK" true true
        (fun n => if n = 0 then .timeout [112] true else .ok [98] [97]) =
      (.ok (strEncode "OK"), 0) ∧
    execute_shell_command true "" true true
        (fun n => if n = 0 then .timeout [112] true else .ok [98] [97]) =
      (.ok [112], 0) ∧
    execute_shell_command false "OK" true true
        (fun n => if n = 0 then .timeout [112] true else .ok [98] [97]) =
      (.ok (okOutput false [98] [97]), 1) ∧
    execute_shell_command true "OK" true true
        (fun n => if n = 0 then .timeout [] true else .ok [98] [97]) =
      (.ok (okOutput true [98] [97]), 1) :=
  ⟨(shell_timeout_partial_output_amended "OK" [98] [97] [112]
      (fun n => if n = 0 then .timeout [112] true else .ok [98] [97]) rfl rfl
      (by decide)).1 (by decide),
   (shell_timeout_partial_output_amended "" [98] [97] [112]
      (fun n => if n = 0 then .timeout [112] true else .ok [98] [97]) rfl rfl
      (by decide)).2.1,
   (shell_timeout_partial_output_amended "OK" [98] [97] [112]
      (fun n => if n = 0 then .timeout [112] true else .ok [98] [97]) rfl rfl
      (by decide)).2.2.1,
   (shell_timeout_partial_output_amended "OK" [98] [97] [112]
      (fun n => if n = 0 then .timeout [112] true else .ok [98] [97]) rfl rfl
      (by decide)).2.2.2
     (fun n => if n = 0 then .timeout [] true else .ok [98] [97]) rfl rfl⟩

/- ===== _execute_command and _execute_normal_command (claim C4) ===== -/

/-- Constructor configuration of AdbController used to build the command
prefix (adb_controller.py lines 40-52 and 64-69). -/
structure AdbController where
  adb_path : String
  adb_server_port : String
  device_name : String

/-- AdbController.command_prefix (adb_controller.py lines 64-69). -/
def command_prefix (c : AdbController) : List String :=
  [c.adb_path, "-P", c.adb_server_port] ++
    (if c.device_name ≠ "" then ["-s", c.device_name] else [])

/-- Outcome of one subprocess.check_output invocation on the one-shot path
(adb_controller.py line 141): its combined output, or one of the two
exceptions caught and re-raised at lines 145-147. -/
inductive OneShotOutcome
  | success (out : Bytes)
  | calledProcessError
  | timeoutExpired
  deriving DecidableEq

/-- Events observable during one _execute_command call: taking and releasing
the single _execute_command_lock, delegating to the interactive shell with
the remaining arguments, or running one one-shot subprocess with the full
command line. -/
inductive LockEv
  | acquire
  | release
  | shellSend (args : List String)
  | oneShot (cmd : List String)
  deriving DecidableEq

/-- AdbController._execute_normal_command (adb_controller.py lines 127-147):
runs subprocess.check_output on the command prefix followed by args; a
CalledProcessError or TimeoutExpired is re-raised to the caller unchanged,
with no retry. The run oracle gives the outcome of the subprocess at each
command line. -/
def execute_normal_command (c : AdbController)
    (run : List String → OneShotOutcome) (args : List String) :
    Except AdbError Bytes :=
  match run ( command_prefix c ++ args) with
  | .success out => .ok out
  | .calledProcessError => .error .CalledProcessError
  | .timeoutExpired => .error .TimeoutExpired

/-- AdbController._execute_command (adb_controller.py lines 100-125): the
whole body runs under the execution lock; if args is non-empty and its first
element is the shell token, the remaining arguments go to
_execute_shell_command (embedded here as the shellRes oracle, the checkStr
forwarding being irrelevant to the routed result), otherwise
_execute_normal_command runs one one-shot subprocess. The second component
is the event trace of the call. -/
def execute_command (c : AdbController) (run : List String → OneShotOutcome)
    (shellRes : List String → Except AdbError Bytes) (args : List String) :
    Except AdbError Bytes × List LockEv :=
  if args ≠ [] ∧ args.headD "" = "shell" then
    (shellRes args.tail, [.acquire, .shellSend args.tail, .release])
  else
    (execute_normal_command c run args,
      [.acquire, .oneShot ( command_prefix c ++ args), .release])

/-- C4: for every non-empty argument list, _execute_command holds the single
execution lock for the whole call (the event trace is exactly an acquire, the
one routed action, and a release) and routes on the first argument: the shell
token delegates the remaining arguments to the interactive shell session,
anything else runs a single one-shot subprocess on the command prefix
followed by args, and a CalledProcessError or TimeoutExpired of that one
subprocess is raised to the caller unchanged, with no second subprocess run
and no internal retry. -/
theorem execute_command_routing_and_oneshot_errors (c : AdbController)
    (run : List String → OneShotOutcome)
    (shellRes : List String → Except AdbError Bytes) (args : List String)
    (hne : args ≠ []) :
    (args.headD "" = "shell" →
      execute_command c run shellRes args =
        (shellRes args.tail, [.acquire, .shellSend args.tail, .release])) ∧
    (args.headD "" ≠ "shell" →
      execute_command c run shellRes args =
        (execute_normal_command c run args,
          [.acquire, .oneShot ( command_prefix c ++ args), .release])) ∧
    (run ( command_prefix c ++ args) = .calledProcessError →
      execute_normal_command c run args = .error .CalledProcessError) ∧
    (run ( command_prefix c ++ args) = .timeoutExpired →
      execute_normal_command c run args = .error .TimeoutExpired) ∧
    (∀ out, run ( command_prefix c ++ args) = .success out →
      execute_normal_command c run args = .ok out) := by
  refine ⟨fun h => ?_, fun h => ?_, fun h => ?_, fun h => ?_, fun out h => ?_⟩
  · unfold execute_command
    rw [if_pos ⟨hne, h⟩]
  · unfold execute_command
    rw [if_neg (fun hc => h hc.2)]
  · simp [execute_normal_command, h]
  · simp [execute_normal_command, h]
  · simp [execute_normal_command, h]

/-- Witness for execute_command_routing_and_oneshot_errors: a shell command
is delegated with the shell token stripped, and a failing one-shot install
command surfaces CalledProcessError under the lock trace. -/
theorem execute_command_routing_and_oneshot_errors_witness :
    execute_command ⟨"adb", "5037", ""⟩ (fun _ => .calledProcessError)
        (fun a => .ok (strEncode (String.intercalate " " a)))
        ["shell", "ls"] =
      (.ok (strEncode "ls"), [.acquire, .shellSend ["ls"], .release]) ∧
    execute_command ⟨"adb", "5037", ""⟩ (fun _ => .calledProcessError)
        (fun a => .ok (strEncode (String.intercalate " " a)))
        ["install", "app.apk"] =
      (.error .CalledProcessError,
        [.acquire, .oneShot ["adb", "-P", "5037", "install", "app.apk"],
          .release]) := by
  constructor
  · exact (execute_command_routing_and_oneshot_errors ⟨"adb", "5037", ""⟩
      (fun _ => .calledProcessError)
      (fun a => .ok (strEncode (String.intercalate " " a)))
      ["shell", "ls"] (by decide)).1 rfl
  · have h2 := (execute_command_routing_and_oneshot_errors ⟨"adb", "5037", ""⟩
      (fun _ => .calledProcessError)
      (fun a => .ok (strEncode (String.intercalate " " a)))
      ["install", "app.apk"] (by decide)).2.1 (by decide)
    rw [h2]
    rfl

/- ===== Readiness probe (claim C5) ===== -/

/-- Whitespace characters of the Python str.strip default set, restricted to
its ASCII members. -/
def pyWs (c : Char) : Bool :=
  c = ' ' ∨ c = '\t' ∨ c = '\n' ∨ c = '\r' ∨ c = '\x0b' ∨ c = '\x0c'

/-- Python str.strip with the default whitespace set (ASCII part). -/
def pyStrip (s : String) : String :=
  ⟨((s.data.dropWhile pyWs).reverse.dropWhile pyWs).reverse⟩

/-- The fixed required_services list of AdbController._check_device_is_ready
(adb_controller.py line 284). -/
def required_services : List String := ["window", "package", "input", "display"]

/-- One iteration of the service loop of _check_device_is_ready
(adb_controller.py lines 285-297): issue shell service check service through
_execute_command, fail on an empty or missing response, and otherwise require
the decoded and stripped output to equal the literal checkStr. The resp
oracle maps each issued argument list to the decoded response, none standing
for a command that produced no output. -/
def check_service (resp : List String → Option String) (service : String) :
    Bool :=
  let checkStr := "Service " ++ service ++ ": found"
  match resp ["shell", "service", "check", service] with
  | none => false
  | some out => if out = "" then false else pyStrip out = checkStr

/-- AdbController._check_device_is_ready (adb_controller.py lines 281-298):
ready exactly when every required service passes its check. -/
def check_device_is_ready (resp : List String → Option String) : Bool :=
  required_services.all (check_service resp)

/-- Status of the while loop of _wait_for_device after a given number of
executed iterations. -/
inductive WaitStatus
  | ready
  | raisedTimeout
  | stillRunning
  deriving DecidableEq

/-- The while loop of AdbController._wait_for_device (adb_controller.py lines
271-279), embedded step-indexed: num_tries starts at 0 and, exactly as in the
source, is never incremented inside the loop body, so the loop guard
num_tries < max_tries keeps its initial value. The resps oracle gives the
device responses seen by the check of iteration i, and fuel bounds how many
iterations are run before we stop observing; stillRunning means the loop had
neither returned nor raised within that many iterations. -/
def wait_for_device_loop (resps : Nat → List String → Option String)
    (max_tries : Nat) (num_tries : Nat) (iter : Nat) : Nat → WaitStatus
  | 0 => .stillRunning
  | fuel + 1 =>
    if num_tries < max_tries then
      if check_device_is_ready (resps iter) then .ready
      else wait_for_device_loop resps max_tries num_tries (iter + 1) fuel
    else .raisedTimeout

/-- AdbController._wait_for_device (adb_controller.py lines 253-279),
observed for fuel iterations; raisedTimeout is the raise of
AdbControllerDeviceTimeoutError at line 279. -/
def wait_for_device (resps : Nat → List String → Option String)
    (max_tries : Nat) (fuel : Nat) : WaitStatus :=
  wait_for_device_loop resps max_tries 0 0 fuel

/-- Helper for the non-termination argument: with a positive max_tries and a
never-ready device the loop status is stillRunning after every number of
iterations, whatever the starting iteration index. -/
theorem wait_loop_never_exits (resps : Nat → List String → Option String)
    (max_tries : Nat) (hmax : 0 < max_tries)
    (hfail : ∀ i, check_device_is_ready (resps i) = false) :
    ∀ fuel iter, wait_for_device_loop resps max_tries 0 iter fuel =
      .stillRunning := by
  intro fuel
  induction fuel with
  | zero => intro iter; rfl
  | succ n ih =>
    intro iter
    simp only [wait_for_device_loop, if_pos hmax, hfail iter, if_neg,
      Bool.false_eq_true, ite_false]
    exact ih (iter + 1)

/-- C5: the readiness probe issues shell service check name for each of the
four services window, package, input, display, and reports ready exactly when
every response, decoded and stripped, is the literal Service name: found; but
because num_tries is never incremented in _wait_for_device, a device that
never reports ready keeps the loop in stillRunning state after every number
of iterations whenever max_tries is positive, so the claimed raise of
AdbControllerDeviceTimeoutError after max_tries checks is unreachable. -/
theorem wait_for_device_never_raises
    (resps : Nat → List String → Option String) (max_tries : Nat)
    (hmax : 0 < max_tries)
    (hfail : ∀ i, check_device_is_ready (resps i) = false) :
    (∀ fuel, wait_for_device resps max_tries fuel = .stillRunning) ∧
    (∀ resp, check_device_is_ready resp = true ↔
      ∀ s ∈ required_services, ∃ out,
        resp ["shell", "service", "check", s] = some out ∧ out ≠ "" ∧
          pyStrip out = "Service " ++ s ++ ": found") ∧
    required_services = ["window", "package", "input", "display"] := by
  refine ⟨fun fuel => wait_loop_never_exits resps max_tries hmax hfail fuel 0,
    fun resp => ?_, rfl⟩
  rw [check_device_is_ready, List.all_eq_true]
  constructor
  · intro h s hs
    have := h s hs
    rw [check_service] at this
    revert this
    cases hr : resp ["shell", "service", "check", s] with
    | none => simp
    | some out =>
      by_cases ho : out = "" <;> simp [ho]
  · intro h s hs
    obtain ⟨out, hr, ho, hp⟩ := h s hs
    rw [check_service, hr]
    simp [ho, hp]

/-- Witness for wait_for_device_never_raises: with the default max_tries of
20 and every service check producing no output, the loop is still running
after 50 iterations and a sample all-found response is judged ready. -/
theorem wait_for_device_never_raises_witness :
    wait_for_device (fun _ _ => none) 20 50 = .stillRunning ∧
    check_device_is_ready
      (fun a => some ("Service " ++ a.getD 3 "" ++ ": found\n")) = true :=
  ⟨(wait_for_device_never_raises (fun _ _ => none) 20 (by decide)
      (fun _ => rfl)).1 50,
   ((wait_for_device_never_raises (fun _ _ => none) 20 (by decide)
      (fun _ => rfl)).2.1
      (fun a => some ("Service " ++ a.getD 3 "" ++ ": found\n"))).2
     (by decide)⟩

/- ===== Log monitor (claim C6) =====
The file android_env/components/logcat_thread.py is not part of the shown
sources; only its test logcat_thread_test.py is. The log monitor is therefore
modelled from the specification (sections 4.3 and 8 of spec.md). -/

/-- Modelled from the spec: an EventListener of the missing
logcat_thread.py, a (pattern, handler, active) triple; handlers are
identified by a numeric id so that invocations can be counted, and the
pattern of the listeners exercised by the test and the spec is a literal
string matched by search inside the line, modelled as substring occurrence. -/
structure EventListener where
  id : Nat
  pattern : String
  active : Bool
  deriving DecidableEq

/-- Modelled from the spec: whether a listener pattern matches a log line
(re.search of a literal pattern, that is, substring occurrence). -/
def matchesLine (pattern : String) (line : String) : Bool :=
  decide (List.IsInfix pattern.data line.data)

/-- Modelled from the spec: the dispatch of one arrived log line of the
missing logcat_thread.py; every currently registered active listener whose
pattern matches the line has its handler invoked exactly once, and the list
of invoked handler ids is returned in registration order. -/
def dispatch_line (listeners : List EventListener) (line : String) :
    List Nat :=
  (listeners.filter (fun l => l.active && matchesLine l.pattern line)).map
    (fun l => l.id)

/-- Modelled from the spec: wait(event=None, timeout_sec) of the missing
logcat_thread.py, observing the lines that arrive before the timeout; it
returns true exactly when some arrived line matches some registered active
listener, no specific event pattern being required. -/
def wait_none (listeners : List EventListener) (lines : List String) : Bool :=
  lines.any (fun ln => !(dispatch_line listeners ln).isEmpty)

/-- C6: a call to wait with event none and a timeout returns true as soon as
any log line arrives that matches some registered active listener pattern,
and, with pairwise distinct listener ids, that listener handler is invoked
exactly once for that line, even though no specific event pattern was passed
to wait. -/
theorem wait_none_any_listener_match (listeners : List EventListener)
    (lines : List String) (l : EventListener) (ln : String)
    (hreg : l ∈ listeners) (hact : l.active = true)
    (hmatch : matchesLine l.pattern ln = true) (hln : ln ∈ lines)
    (hid : (listeners.map (fun x => x.id)).Nodup) :
    wait_none listeners lines = true ∧
    (dispatch_line listeners ln).count l.id = 1 := by
  have hfil : l ∈ listeners.filter (fun x => x.active && matchesLine x.pattern ln) := by
    rw [List.mem_filter]
    exact ⟨hreg, by rw [hact, hmatch]; rfl⟩
  have hmem : l.id ∈ dispatch_line listeners ln :=
    List.mem_map_of_mem (fun x => x.id) hfil
  constructor
  · rw [wait_none, List.any_eq_true]
    refine ⟨ln, hln, ?_⟩
    simp only [Bool.not_eq_true']
    exact List.isEmpty_eq_false_iff_exists_mem.mpr ⟨l.id, hmem⟩
  · have hsub : (dispatch_line listeners ln).Sublist
        (listeners.map (fun x => x.id)) := by
      rw [dispatch_line]
      exact List.Sublist.map (fun x => x.id) (List.filter_sublist listeners)
    exact List.count_eq_one_of_mem (hid.sublist hsub) hmem

/-- Witness for wait_none_any_listener_match: registering the pattern Hello
world and letting a line containing it arrive makes wait with event none
return true with exactly one handler invocation. -/
theorem wait_none_any_listener_match_witness :
    wait_none [⟨7, "Hello world", true⟩]
      ["1553110400.424  5583  5658 D Tag: Hello world"] = true ∧
    (dispatch_line [⟨7, "Hello world", true⟩]
      "1553110400.424  5583  5658 D Tag: Hello world").count 7 = 1 :=
  wait_none_any_listener_match [⟨7, "Hello world", true⟩]
    ["1553110400.424  5583  5658 D Tag: Hello world"]
    ⟨7, "Hello world", true⟩ "1553110400.424  5583  5658 D Tag: Hello world"
    (by decide) rfl (by decide) (by decide) (by decide)

/- ===== Screen size probe (claim C7) =====
get_screen_dimensions applies re.match with the pattern
dot-star Physical backslash-s size: backslash-s group of [0-9]+ x [0-9]+
dot-star to the decoded output with the CR-LF pairs removed. The Python
regex semantics are embedded directly: re.match anchors at the start, the
leading greedy dot-star cannot cross a line feed, backslash-s is one
whitespace character (modelled over its ASCII members, pyWs), and [0-9]+ is
greedy. -/

/-- One ASCII decimal digit, the character class [0-9]. -/
def digitChar (c : Char) : Bool := '0' ≤ c ∧ c ≤ '9'

/-- Python int applied to a non-empty ASCII digit string. -/
def natOfDigits (l : List Char) : Nat :=
  l.foldl (fun acc c => 10 * acc + (c.toNat - 48)) 0

/-- Matching a literal against a prefix of the input, returning the rest. -/
def stripLit : List Char → List Char → Option (List Char)
  | [], l => some l
  | _ :: _, [] => none
  | p :: ps, c :: cs => if c = p then stripLit ps cs else none

/-- Greedy run of digits at the front of the input. -/
def takeDigits : List Char → List Char × List Char
  | [] => ([], [])
  | c :: cs =>
    if digitChar c then
      let r := takeDigits cs
      (c :: r.1, r.2)
    else ([], c :: cs)

/-- The regex piece [0-9]+: at least one digit, taken greedily. -/
def takeDigits1 (l : List Char) : Option (List Char × List Char) :=
  match takeDigits l with
  | ([], _) => none
  | (d :: ds, rest) => some (d :: ds, rest)

/-- Python str.replace of the two-character CR-LF sequence by the empty
string, left to right (adb_controller.py line 520). -/
def removeCRLF : List Char → List Char
  | [] => []
  | c :: rest =>
    match rest with
    | [] => [c]
    | c2 :: rest2 =>
      if c = '\r' ∧ c2 = '\n' then removeCRLF rest2
      else c :: removeCRLF (c2 :: rest2)

/-- A string without line feeds is unchanged by CR-LF removal. -/
theorem removeCRLF_no_lf : ∀ (l : List Char), '\n' ∉ l → removeCRLF l = l := by
  intro l
  induction l with
  | nil => intro _; rfl
  | cons c rest ih =>
    intro h
    have hrest : '\n' ∉ rest := fun hm => h (List.mem_cons_of_mem c hm)
    cases rest with
    | nil => rfl
    | cons c2 rest2 =>
      have hc2 : c2 ≠ '\n' :=
        fun e => hrest (e ▸ List.mem_cons_self c2 rest2)
      rw [removeCRLF]
      rw [if_neg (fun hc : c = '\r' ∧ c2 = '\n' => hc2 hc.2), ih hrest]

/-- Greedy run of whitespace at the front of the input, returning the rest. -/
def takeWs : List Char → List Char
  | [] => []
  | c :: cs => if pyWs c then takeWs cs else c :: cs

/-- The regex piece backslash-s+: at least one whitespace character. -/
def takeWs1 : List Char → Option (List Char)
  | [] => none
  | c :: cs => if pyWs c then some (takeWs cs) else none

/-- re.match of backslash-s+ PhysicalWidth: backslash-s+ (-? digits+) px
against one line, returning int of the captured group
(adb_controller.py line 546). -/
def matchPW (l : List Char) : Option Int :=
  match takeWs1 l with
  | none => none
  | some r1 =>
    match stripLit "PhysicalWidth:".data r1 with
    | none => none
    | some r2 =>
      match takeWs1 r2 with
      | none => none
      | some r3 =>
        match (match r3 with
               | '-' :: t => (true, t)
               | _ => (false, r3)) with
        | (neg, r4) =>
          match takeDigits1 r4 with
          | none => none
          | some (ds, r5) =>
            match stripLit "px".data r5 with
            | none => none
            | some _ =>
              some (if neg then -(natOfDigits ds : Int) else (natOfDigits ds : Int))

/-- re.match of backslash-s+ SurfaceOrientation: backslash-s+ (one digit)
against one line, returning the captured digit
(adb_controller.py line 550). -/
def matchSO (l : List Char) : Option Char :=
  match takeWs1 l with
  | none => none
  | some r1 =>
    match stripLit "SurfaceOrientation:".data r1 with
    | none => none
    | some r2 =>
      match takeWs1 r2 with
      | none => none
      | some r3 =>
        match r3 with
        | [] => none
        | c :: _ => if digitChar c then some c else none

/-- Python str.split with the single-character separator line feed. -/
def splitLF : List Char → List (List Char)
  | [] => [[]]
  | c :: rest =>
    let r := splitLF rest
    if c = '\n' then [] :: r
    else (c :: r.headD []) :: r.tail

/-- The for loop of get_orientation (adb_controller.py lines 542-556): the
skip flag threads the sign of the most recent PhysicalWidth line; a
SurfaceOrientation line returns its digit as a one-character string unless
currently skipped (the continue at line 553 keeps scanning). -/
def orientation_scan : List (List Char) → Bool → Option String
  | [], _ => none
  | line :: rest, skip =>
    let skip1 := match matchPW line with
      | some w => decide (w < 0)
      | none => skip
    match matchSO line with
    | some d => if skip1 then orientation_scan rest skip1 else some ⟨[d]⟩
    | none => orientation_scan rest skip1

/-- AdbController.get_orientation (adb_controller.py lines 530-559): the resp
argument is the decoded output of the shell dumpsys input command, none
standing for a command that produced no output. -/
def get_orientation (resp : Option String) : Option String :=
  match resp with
  | none => none
  | some s => if s = "" then none else orientation_scan (splitLF s.data) false

/-- Specification-side definition, following the words of the claim: the
PhysicalWidth value of the line most recently preceding a given point. -/
def mostRecentPW (pre : List (List Char)) : Option Int :=
  (pre.filterMap matchPW).getLast?

/-- Specification-side definition: whether the most recent preceding
PhysicalWidth line reports a negative width (no such line means no skip). -/
def skippedBy (pre : List (List Char)) : Bool :=
  match mostRecentPW pre with
  | some w => decide (w < 0)
  | none => false

/-- Specification-side definition, following the words of the claim: return
the digit of the first SurfaceOrientation line that is not preceded most
recently by a PhysicalWidth line with a negative width, the preceding lines
being accumulated in pre. -/
def spec_orientation : List (List Char) → List (List Char) → Option String
  | _, [] => none
  | pre, line :: rest =>
    match matchSO line with
    | some d =>
      if skippedBy pre then spec_orientation (pre ++ [line]) rest
      else some ⟨[d]⟩
    | none => spec_orientation (pre ++ [line]) rest

/-- A successful literal strip pins down the head of the input. -/
theorem stripLit_cons_head {p : Char} {ps : List Char} {l : List Char}
    {r : List Char} (h : stripLit (p :: ps) l = some r) : ∃ t, l = p :: t := by
  cases l with
  | nil => exact absurd h (by simp [stripLit])
  | cons c cs =>
    rw [stripLit] at h
    by_cases hc : c = p
    · exact ⟨cs, by rw [hc]⟩
    · rw [if_neg hc] at h
      exact absurd h (by simp)

/-- A line matching the SurfaceOrientation pattern cannot also match the
PhysicalWidth pattern, since after the shared whitespace run the next
character would have to be both S and P. -/
theorem matchPW_none_of_matchSO {l : List Char} {d : Char}
    (h : matchSO l = some d) : matchPW l = none := by
  rw [matchSO] at h
  cases hws : takeWs1 l with
  | none => rw [hws] at h; exact absurd h (by simp)
  | some r1 =>
    simp only [hws] at h
    cases hsl : stripLit "SurfaceOrientation:".data r1 with
    | none =>
      simp only [hsl] at h
      exact Option.noConfusion h
    | some r2 =>
      obtain ⟨t, ht⟩ := stripLit_cons_head
        (show stripLit ('S' :: "urfaceOrientation:".data) r1 = some r2 from hsl)
      have hp : stripLit "PhysicalWidth:".data ('S' :: t) = none := by
        show stripLit ('P' :: "hysicalWidth:".data) ('S' :: t) = none
        rw [stripLit, if_neg (by decide : ¬('S' = 'P'))]
      rw [matchPW, hws, ht]
      simp only [hp]

/-- Appending a PhysicalWidth line makes it the most recent one. -/
theorem mostRecentPW_append_pw (pre : List (List Char)) (line : List Char)
    (w : Int) (h : matchPW line = some w) :
    mostRecentPW (pre ++ [line]) = some w := by
  rw [mostRecentPW, List.filterMap_append]
  simp [List.filterMap, h]

/-- Appending a non-PhysicalWidth line keeps the most recent one. -/
theorem mostRecentPW_append_none (pre : List (List Char)) (line : List Char)
    (h : matchPW line = none) :
    mostRecentPW (pre ++ [line]) = mostRecentPW pre := by
  rw [mostRecentPW, List.filterMap_append]
  simp [List.filterMap, h, mostRecentPW]

/-- The scanning loop of the source equals the specification-side function:
the threaded skip flag is exactly the negativity of the most recent
PhysicalWidth line of the consumed prefix. -/
theorem scan_eq_spec : ∀ (rest pre : List (List Char)),
    orientation_scan rest (skippedBy pre) = spec_orientation pre rest := by
  intro rest
  induction rest with
  | nil => intro pre; rfl
  | cons line rest ih =>
    intro pre
    simp only [orientation_scan, spec_orientation]
    cases hpw : matchPW line with
    | some w =>
      cases hso : matchSO line with
      | some d =>
        rw [matchPW_none_of_matchSO hso] at hpw
        exact absurd hpw (by simp)
      | none =>
        simp only [hpw, hso]
        have hsk : skippedBy (pre ++ [line]) = decide (w < 0) := by
          rw [skippedBy, mostRecentPW_append_pw pre line w hpw]
        rw [← hsk]
        exact ih (pre ++ [line])
    | none =>
      have hsk : skippedBy (pre ++ [line]) = skippedBy pre := by
        rw [skippedBy, mostRecentPW_append_none pre line hpw, skippedBy]
      cases hso : matchSO line with
      | some d =>
        simp only [hpw, hso]
        by_cases hb : skippedBy pre = true
        · rw [if_pos hb, if_pos hb, ← hsk]
          exact ih (pre ++ [line])
        · rw [if_neg hb, if_neg hb]
      | none =>
        simp only [hpw, hso]
        rw [← hsk]
        exact ih (pre ++ [line])

/-- C8: get_orientation scans the dumpsys output line by line and returns the
digit of the first SurfaceOrientation line that is not preceded most recently
by a PhysicalWidth line with a negative width (such devices being skipped),
as stated by the specification-side function spec_orientation; an empty or
missing output returns none, and spec_orientation returns none when no such
line exists. -/
theorem get_orientation_matches_spec :
    get_orientation none = none ∧
    get_orientation (some "") = none ∧
    (∀ s : String, s ≠ "" →
      get_orientation (some s) = spec_orientation [] (splitLF s.data)) := by
  refine ⟨rfl, rfl, fun s hs => ?_⟩
  simp only [get_orientation]
  rw [if_neg hs]
  exact scan_eq_spec (splitLF s.data) []

/-- Witness for get_orientation_matches_spec: a dumpsys output with a
negative-width device listed first agrees with the specification-side
reading, both returning the orientation digit 3 of the second device. -/
theorem get_orientation_matches_spec_witness :
    get_orientation (some ("  PhysicalWidth: -1px\n  SurfaceOrientation: 2\n" ++
        "  PhysicalWidth: 320px\n  SurfaceOrientation: 3")) =
      spec_orientation []
        (splitLF ("  PhysicalWidth: -1px\n  SurfaceOrientation: 2\n" ++
          "  PhysicalWidth: 320px\n  SurfaceOrientation: 3").data) ∧
    get_orientation (some ("  PhysicalWidth: -1px\n  SurfaceOrientation: 2\n" ++
        "  PhysicalWidth: 320px\n  SurfaceOrientation: 3")) = some "3" :=
  ⟨(get_orientation_matches_spec).2.2 _ (by decide), by decide⟩

end AdbSpec
